import Mathlib

/-!
Verification of the publish fan-out component and the request-validation
layer of the media web application.

The embedding follows the TypeScript source:
* `src/app/src/types/media.ts` — the `aspectRatioToSize` map, the
  `publishSchema` zod validator and the publish route handler `POST`.
* `src/unnamed/part_000` — the image-generation route handler `POST`
  (`requestSchema`, `styleMappings`, payload construction).
* `@/lib/socials` (`publishToSocialPlatforms`) is imported by the publish
  route but its implementation is not part of the snapshot; it is modelled
  from the specification (see the doc comments below).

zod's `.url()` string check is a library predicate external to the
repository; it is abstracted as an explicit `urlCheck : String → Bool`
parameter of the validator.
-/

/-- The platform enumeration from `publishSchema` / `SocialPlatform`:
`z.enum(["x", "instagram", "tiktok", "youtube"])`. -/
inductive SocialPlatform where
  | x
  | instagram
  | tiktok
  | youtube
deriving DecidableEq, Repr

/-- The media-type enumeration `z.enum(["image", "video"])`. -/
inductive MediaType where
  | image
  | video
deriving DecidableEq, Repr

/-- Decoding of one platform string, as zod's enum check does. -/
def parsePlatform (s : String) : Option SocialPlatform :=
  if s = "x" then some SocialPlatform.x
  else if s = "instagram" then some SocialPlatform.instagram
  else if s = "tiktok" then some SocialPlatform.tiktok
  else if s = "youtube" then some SocialPlatform.youtube
  else none

/-- Decoding of the media-type string. -/
def parseMediaType (s : String) : Option MediaType :=
  if s = "image" then some MediaType.image
  else if s = "video" then some MediaType.video
  else none

/-- JavaScript truthiness of an optional string field: absent and the
empty string are falsy (`!value.mediaUrl` in the `superRefine`). -/
def jsTruthy : Option String → Bool
  | none => false
  | some s => !(s == "")

/-- The raw JSON body of a publish request, before validation.  Field
names and optionality follow `publishSchema` in `media.ts`. -/
structure PublishBody where
  mediaType : String
  caption : String
  title : Option String := none
  tags : Option (List String) := none
  mediaUrl : Option String := none
  mediaBase64 : Option String := none
  mimeType : Option String := none
  callToActionUrl : Option String := none
  campaignId : Option String := none
  platforms : List String
deriving DecidableEq, Repr

/-- The result of `publishSchema.parse` on a valid body. -/
structure ParsedPublish where
  mediaType : MediaType
  caption : String
  title : Option String
  tags : Option (List String)
  mediaUrl : Option String
  mediaBase64 : Option String
  mimeType : Option String
  callToActionUrl : Option String
  campaignId : Option String
  platforms : List SocialPlatform
deriving DecidableEq, Repr

/-- The issue an optional `.url()` field contributes: nothing when the
field is absent or passes the check, one message otherwise. -/
def urlFieldIssue (urlCheck : String → Bool) (msg : String) : Option String → List String
  | some u => if urlCheck u then [] else [msg]
  | none => []

/-- The issue of `z.array(z.enum([...])).min(1)`, given the element-wise
decoding: an unrecognized element or an empty list is an issue. -/
def platformsIssue : Option (List SocialPlatform) → List String
  | none => ["Invalid enum value in platforms."]
  | some ps => if ps.isEmpty then ["Select at least one platform."] else []

/-- The list of validation issues `publishSchema` raises on a body, in
field order, ending with the `superRefine` cross-field check (zod runs the
refinement even when earlier field checks already produced non-fatal
issues, so the issue lists simply concatenate).  `urlCheck` stands for
zod's `.url()` string predicate. -/
def publishIssues (urlCheck : String → Bool) (b : PublishBody) : List String :=
  (if (parseMediaType b.mediaType).isSome then [] else ["Invalid enum value for mediaType."]) ++
  (if b.caption.length < 3 then ["Caption must be at least 3 characters."] else []) ++
  urlFieldIssue urlCheck "Invalid url for mediaUrl." b.mediaUrl ++
  urlFieldIssue urlCheck "Invalid url for callToActionUrl." b.callToActionUrl ++
  platformsIssue (b.platforms.mapM parsePlatform) ++
  (if !jsTruthy b.mediaUrl && !jsTruthy b.mediaBase64 then
    ["Provide either mediaUrl or mediaBase64."]
  else [])

/-- `publishSchema.parse`: succeeds exactly when no issue is raised, and
then returns the typed body. -/
def publishSchemaParse (urlCheck : String → Bool) (b : PublishBody) :
    Except (List String) ParsedPublish :=
  match parseMediaType b.mediaType, b.platforms.mapM parsePlatform with
  | some mt, some ps =>
    if publishIssues urlCheck b = [] then
      Except.ok
        { mediaType := mt
          caption := b.caption
          title := b.title
          tags := b.tags
          mediaUrl := b.mediaUrl
          mediaBase64 := b.mediaBase64
          mimeType := b.mimeType
          callToActionUrl := b.callToActionUrl
          campaignId := b.campaignId
          platforms := ps }
    else Except.error (publishIssues urlCheck b)
  | _, _ => Except.error (publishIssues urlCheck b)

/-- The status of one platform publish attempt. -/
inductive PubStatus where
  | success
  | failure
deriving DecidableEq, Repr

/-- The outcome record for one platform, as in the spec's data model and
the response shape `{platform, status, message?, postId?}`. -/
structure PlatformResult where
  platform : SocialPlatform
  status : PubStatus
  message : Option String := none
  postId : Option String := none
deriving DecidableEq, Repr

/-- A JavaScript thrown value: either an `Error` carrying a message, or
any other value. -/
inductive JsThrown where
  | jsError (msg : String)
  | nonError
deriving DecidableEq, Repr

/-- What one adapter call can do: return a structured reply (success or
failure, with optional message and post id), or throw. -/
inductive AdapterOutcome where
  | reply (status : PubStatus) (message : Option String) (postId : Option String)
  | thrown (e : JsThrown)
deriving DecidableEq, Repr

/-- The request data handed to every adapter: the parsed body minus the
`platforms` list, exactly the object literal built in the publish route
handler. -/
structure PublishPayload where
  mediaType : MediaType
  caption : String
  title : Option String
  tags : Option (List String)
  mediaUrl : Option String
  mediaBase64 : Option String
  mimeType : Option String
  callToActionUrl : Option String
  campaignId : Option String
deriving DecidableEq, Repr

/-- The object literal the publish route handler passes to
`publishToSocialPlatforms`, built field by field from the parsed body. -/
def ParsedPublish.toPayload (p : ParsedPublish) : PublishPayload :=
  { mediaType := p.mediaType
    caption := p.caption
    title := p.title
    tags := p.tags
    mediaUrl := p.mediaUrl
    mediaBase64 := p.mediaBase64
    mimeType := p.mimeType
    callToActionUrl := p.callToActionUrl
    campaignId := p.campaignId }

/-- Modelled from the spec: the message the orchestrator derives from a
thrown value when normalizing it into a `failure` result — a best-effort,
non-empty message (the `Error`'s own message when it has one, a generic
fallback otherwise).  The implementation of `@/lib/socials` is not in the
snapshot. -/
def derivedFailureMessage : JsThrown → String
  | JsThrown.jsError m =>
    if m = "" then "Unexpected error while publishing." else m
  | JsThrown.nonError => "Unexpected error while publishing."

/-- Modelled from the spec: normalization of one adapter outcome into the
`PlatformResult` for platform `p` — a structured reply is kept as-is, a
thrown value becomes a `failure` result with a derived message. -/
def normalizeOutcome (p : SocialPlatform) : AdapterOutcome → PlatformResult
  | AdapterOutcome.reply st msg pid =>
    { platform := p, status := st, message := msg, postId := pid }
  | AdapterOutcome.thrown e =>
    { platform := p, status := PubStatus.failure
      message := some (derivedFailureMessage e), postId := none }

/-- Modelled from the spec: `publishToSocialPlatforms` from `@/lib/socials`
(not in the snapshot) invokes the adapter once per target, in input order,
normalizes each outcome, and never lets one outcome abort the rest.  The
second component records each adapter invocation, in order, for the
"no adapter is invoked" / "exactly once" obligations. -/
def publishWithTrace (adapter : SocialPlatform → PublishPayload → AdapterOutcome)
    (req : PublishPayload) :
    List SocialPlatform → List PlatformResult × List SocialPlatform
  | [] => ([], [])
  | p :: rest =>
    let out := adapter p req
    let tail := publishWithTrace adapter req rest
    (normalizeOutcome p out :: tail.1, p :: tail.2)

/-- Modelled from the spec: the result list of the orchestrator. -/
def publishToSocialPlatforms (adapter : SocialPlatform → PublishPayload → AdapterOutcome)
    (req : PublishPayload) (targets : List SocialPlatform) : List PlatformResult :=
  (publishWithTrace adapter req targets).1

/-- The three response shapes of the publish route handler: 200 with the
result list, 422 with the flattened zod issues, 500 with an error
message. -/
inductive PostResponse where
  | ok (results : List PlatformResult)
  | validationFailed (issues : List String)
  | serverFailed (msg : String)
deriving DecidableEq, Repr

/-- The publish route handler `POST` of `media.ts`: parse the body with
`publishSchema`; on a zod error answer 422 (no adapter call is made); on
success call the orchestrator and answer 200 with its results.  The second
component is the list of adapter invocations performed during the call. -/
def POST (adapter : SocialPlatform → PublishPayload → AdapterOutcome)
    (urlCheck : String → Bool) (b : PublishBody) :
    PostResponse × List SocialPlatform :=
  match publishSchemaParse urlCheck b with
  | Except.error issues => (PostResponse.validationFailed issues, [])
  | Except.ok parsed =>
    let run := publishWithTrace adapter parsed.toPayload parsed.platforms
    (PostResponse.ok run.1, run.2)

/-- The aspect-ratio enumeration of `media.ts`. -/
inductive AspectRatio where
  | square
  | portrait
  | landscape
  | ultrawide
  | vertical
deriving DecidableEq, Repr

/-- The `aspectRatioToSize` record of `media.ts`, mapping each aspect
ratio to an image-size string. -/
def aspectRatioToSize : AspectRatio → String
  | AspectRatio.square => "1024x1024"
  | AspectRatio.portrait => "1024x1536"
  | AspectRatio.landscape => "1536x1024"
  | AspectRatio.ultrawide => "1792x1024"
  | AspectRatio.vertical => "1024x1792"

/-- Decoding of one aspect-ratio string, as the zod enum check of the
image-generation `requestSchema` does. -/
def parseAspectRatio : String → Option AspectRatio
  | "square" => some AspectRatio.square
  | "portrait" => some AspectRatio.portrait
  | "landscape" => some AspectRatio.landscape
  | "ultrawide" => some AspectRatio.ultrawide
  | "vertical" => some AspectRatio.vertical
  | _ => none

/-- The style enumeration of the image-generation `requestSchema`. -/
inductive ImgStyle where
  | cinematic
  | threeD
  | illustration
  | photographic
  | digitalArt
deriving DecidableEq, Repr

/-- Decoding of one style string. -/
def parseImgStyle : String → Option ImgStyle
  | "cinematic" => some ImgStyle.cinematic
  | "3d" => some ImgStyle.threeD
  | "illustration" => some ImgStyle.illustration
  | "photographic" => some ImgStyle.photographic
  | "digital-art" => some ImgStyle.digitalArt
  | _ => none

/-- The quality enumeration of the image-generation `requestSchema`. -/
inductive ImgQuality where
  | standard
  | high
deriving DecidableEq, Repr

/-- Decoding of one quality string. -/
def parseImgQuality : String → Option ImgQuality
  | "standard" => some ImgQuality.standard
  | "high" => some ImgQuality.high
  | _ => none

/-- The raw JSON body of an image-generation request.  `none` for a field
with a zod `.default(...)` means the field was absent and the default
applies. -/
structure ImageGenBody where
  prompt : String
  aspectRatio : Option String := none
  style : Option String := none
  negativePrompt : Option String := none
  quality : Option String := none
deriving DecidableEq, Repr

/-- The result of the image-generation `requestSchema.parse` on a valid
body, defaults applied. -/
structure ImageGenParsed where
  prompt : String
  aspectRatio : AspectRatio
  style : ImgStyle
  negativePrompt : Option String
  quality : ImgQuality
deriving DecidableEq, Repr

/-- One optional enum field with a default: absent means the default,
present means the string must decode. -/
def parseEnumField {α : Type} (parse : String → Option α) (dflt : α) :
    Option String → Option α
  | none => some dflt
  | some s => parse s

/-- The image-generation `requestSchema.parse`: prompt at least 10
characters, the three enum fields with defaults `square` / `cinematic` /
`high`, optional negative prompt. -/
def imageRequestParse (b : ImageGenBody) : Except (List String) ImageGenParsed :=
  match parseEnumField parseAspectRatio AspectRatio.square b.aspectRatio,
      parseEnumField parseImgStyle ImgStyle.cinematic b.style,
      parseEnumField parseImgQuality ImgQuality.high b.quality with
  | some ar, some st, some q =>
    if b.prompt.length < 10 then
      Except.error ["Prompt must be at least 10 characters."]
    else
      Except.ok
        { prompt := b.prompt
          aspectRatio := ar
          style := st
          negativePrompt := b.negativePrompt
          quality := q }
  | _, _, _ => Except.error ["Invalid enum value."]

/-- The `styleMappings` record of the image-generation route handler. -/
def styleMappings : ImgStyle → String
  | ImgStyle.photographic => "natural"
  | _ => "vivid"

/-- The prompt the handler sends upstream: the negative prompt, when
present and not blank, is appended after an "Avoid:" marker. -/
def buildImagePrompt (p : ImageGenParsed) : String :=
  match p.negativePrompt with
  | some np =>
    if 0 < np.trim.length then p.prompt ++ "\n\nAvoid: " ++ np else p.prompt
  | none => p.prompt

/-- The upstream `ImageGenerateParams` payload. -/
structure ImagePayload where
  model : String
  prompt : String
  size : String
  quality : String
  style : String
deriving DecidableEq, Repr

/-- The payload the image-generation handler builds for the upstream API,
given the `VEO_MODEL` environment value (`none` when unset). -/
def imagePayload (veoModel : Option String) (p : ImageGenParsed) : ImagePayload :=
  { model :=
      match veoModel with
      | some m => if 0 < m.length then m else "veo-3"
      | none => "veo-3"
    prompt := buildImagePrompt p
    size := aspectRatioToSize p.aspectRatio
    quality := if p.quality = ImgQuality.high then "hd" else "standard"
    style := styleMappings p.style }

/-- The conjunction of the individual `publishSchema` checks: a body
raises no issue exactly when all of them hold
(`publishIssues_eq_nil_iff`). -/
def publishValid (urlCheck : String → Bool) (b : PublishBody) : Prop :=
  (parseMediaType b.mediaType).isSome = true ∧
  3 ≤ b.caption.length ∧
  (∀ s, b.mediaUrl = some s → urlCheck s = true) ∧
  (∀ s, b.callToActionUrl = some s → urlCheck s = true) ∧
  (∃ ps, b.platforms.mapM parsePlatform = some ps ∧ ps ≠ []) ∧
  (jsTruthy b.mediaUrl = true ∨ jsTruthy b.mediaBase64 = true)

/-- A faulty variant of an adapter: identical on every platform except
`t`, where it throws `e`.  Used to compare a run in which one target's
adapter call raises with the run that has no such fault. -/
def overrideThrow (adapter : SocialPlatform → PublishPayload → AdapterOutcome)
    (t : SocialPlatform) (e : JsThrown) :
    SocialPlatform → PublishPayload → AdapterOutcome :=
  fun p r => if p = t then AdapterOutcome.thrown e else adapter p r

/-- An adapter that replies success on every call. -/
def okAdapter : SocialPlatform → PublishPayload → AdapterOutcome :=
  fun _ _ => AdapterOutcome.reply PubStatus.success (some "ok") (some "post-1")

/-- A well-formed publish body used to instantiate the theorems. -/
def sampleBody : PublishBody :=
  { mediaType := "image"
    caption := "Launch day"
    mediaUrl := some "https://example.com/a.png"
    platforms := ["x", "instagram"] }

/-- What `publishSchema.parse` returns on `sampleBody`. -/
def sampleParsed : ParsedPublish :=
  { mediaType := MediaType.image
    caption := "Launch day"
    title := none
    tags := none
    mediaUrl := some "https://example.com/a.png"
    mediaBase64 := none
    mimeType := none
    callToActionUrl := none
    campaignId := none
    platforms := [SocialPlatform.x, SocialPlatform.instagram] }

/-- A publish body carrying BOTH a media URL and inline base64 content. -/
def bothMediaBody : PublishBody :=
  { mediaType := "image"
    caption := "Launch day"
    mediaUrl := some "https://example.com/a.png"
    mediaBase64 := some "aGVsbG8="
    platforms := ["x"] }

/-- What `publishSchema.parse` returns on `bothMediaBody`. -/
def bothMediaParsed : ParsedPublish :=
  { mediaType := MediaType.image
    caption := "Launch day"
    title := none
    tags := none
    mediaUrl := some "https://example.com/a.png"
    mediaBase64 := some "aGVsbG8="
    mimeType := none
    callToActionUrl := none
    campaignId := none
    platforms := [SocialPlatform.x] }

/-- A publish body with an empty target list. -/
def emptyPlatformsBody : PublishBody :=
  { mediaType := "image"
    caption := "Launch day"
    mediaUrl := some "https://example.com/a.png"
    platforms := [] }

/-- A publish body with NEITHER a media URL nor inline base64 content. -/
def noMediaBody : PublishBody :=
  { mediaType := "image"
    caption := "Launch day"
    platforms := ["x"] }

/-- A publish body whose target list names the same platform twice. -/
def dupBody : PublishBody :=
  { mediaType := "image"
    caption := "Launch day"
    mediaUrl := some "https://example.com/a.png"
    platforms := ["x", "x"] }

/-- What `publishSchema.parse` returns on `dupBody`. -/
def dupParsed : ParsedPublish :=
  { mediaType := MediaType.image
    caption := "Launch day"
    title := none
    tags := none
    mediaUrl := some "https://example.com/a.png"
    mediaBase64 := none
    mimeType := none
    callToActionUrl := none
    campaignId := none
    platforms := [SocialPlatform.x, SocialPlatform.x] }

/-- A well-formed publish body whose caption is the parameter, for the
caption-boundary theorem. -/
def captionBody (c : String) : PublishBody :=
  { mediaType := "image"
    caption := c
    mediaUrl := some "https://example.com/a.png"
    platforms := ["x"] }

/-- The payload handed to adapters after parsing `sampleBody`. -/
def samplePayload : PublishPayload := sampleParsed.toPayload

/-- A well-formed image-generation body used to instantiate the
payload theorem. -/
def sampleImageBody : ImageGenBody :=
  { prompt := "A lighthouse at dawn"
    aspectRatio := some "portrait" }

/-- What the image-generation schema returns on `sampleImageBody`. -/
def sampleImageParsed : ImageGenParsed :=
  { prompt := "A lighthouse at dawn"
    aspectRatio := AspectRatio.portrait
    style := ImgStyle.cinematic
    negativePrompt := none
    quality := ImgQuality.high }

theorem normalizeOutcome_platform (p : SocialPlatform) (o : AdapterOutcome) :
    (normalizeOutcome p o).platform = p := by
  cases o <;> rfl

theorem derivedFailureMessage_ne_empty (e : JsThrown) :
    derivedFailureMessage e ≠ "" := by
  cases e with
  | jsError m =>
    show (if m = "" then "Unexpected error while publishing." else m) ≠ ""
    split_ifs with h
    · decide
    · exact h
  | nonError => decide

theorem publishWithTrace_fst (adapter : SocialPlatform → PublishPayload → AdapterOutcome)
    (req : PublishPayload) :
    ∀ ts : List SocialPlatform,
      (publishWithTrace adapter req ts).1 =
        ts.map (fun p => normalizeOutcome p (adapter p req))
  | [] => rfl
  | p :: ts => by
    simp only [publishWithTrace, List.map_cons]
    exact congrArg _ (publishWithTrace_fst adapter req ts)

theorem publishWithTrace_snd (adapter : SocialPlatform → PublishPayload → AdapterOutcome)
    (req : PublishPayload) :
    ∀ ts : List SocialPlatform, (publishWithTrace adapter req ts).2 = ts
  | [] => rfl
  | p :: ts => by
    simp only [publishWithTrace]
    exact congrArg _ (publishWithTrace_snd adapter req ts)

theorem publishToSocialPlatforms_eq_map
    (adapter : SocialPlatform → PublishPayload → AdapterOutcome)
    (req : PublishPayload) (ts : List SocialPlatform) :
    publishToSocialPlatforms adapter req ts =
      ts.map (fun p => normalizeOutcome p (adapter p req)) :=
  publishWithTrace_fst adapter req ts

theorem publishSchemaParse_error_of_ne (u : String → Bool) (b : PublishBody)
    (h : publishIssues u b ≠ []) :
    publishSchemaParse u b = Except.error (publishIssues u b) := by
  unfold publishSchemaParse
  split
  · rw [if_neg h]
  · rfl

theorem publishSchemaParse_ok_elim (u : String → Bool) (b : PublishBody)
    (parsed : ParsedPublish) (h : publishSchemaParse u b = Except.ok parsed) :
    publishIssues u b = [] ∧
    parseMediaType b.mediaType = some parsed.mediaType ∧
    parsed.caption = b.caption ∧
    b.platforms.mapM parsePlatform = some parsed.platforms ∧
    parsed.mediaUrl = b.mediaUrl ∧
    parsed.mediaBase64 = b.mediaBase64 := by
  unfold publishSchemaParse at h
  split at h
  next mt ps hmt hps =>
    split at h
    next hnil =>
      injection h with h'
      subst h'
      exact ⟨hnil, hmt, rfl, hps, rfl, rfl⟩
    next => exact absurd h (by simp)
  next => exact absurd h (by simp)

theorem ite_nil_iff_pos {c : Prop} [Decidable c] {msgs : List String}
    (hm : msgs ≠ []) : ((if c then [] else msgs) = []) ↔ c := by
  split_ifs with h
  · simp [h]
  · simp [hm, h]

theorem ite_nil_iff_neg {c : Prop} [Decidable c] {msgs : List String}
    (hm : msgs ≠ []) : ((if c then msgs else []) = []) ↔ ¬c := by
  split_ifs with h <;> simp [hm, h]

theorem urlFieldIssue_nil_iff (u : String → Bool) (msg : String) (o : Option String) :
    (urlFieldIssue u msg o = []) ↔ (∀ s, o = some s → u s = true) := by
  rcases o with _ | s
  · simp [urlFieldIssue]
  · unfold urlFieldIssue
    rw [ite_nil_iff_pos (by simp)]
    constructor
    · intro h t ht
      cases ht
      exact h
    · intro h
      exact h s rfl

theorem platformsIssue_nil_iff (o : Option (List SocialPlatform)) :
    (platformsIssue o = []) ↔ (∃ ps, o = some ps ∧ ps ≠ []) := by
  rcases o with _ | ps
  · simp [platformsIssue]
  · unfold platformsIssue
    rw [ite_nil_iff_neg (by simp)]
    simp [List.isEmpty_iff]

theorem publishIssues_nil_iff (u : String → Bool) (b : PublishBody) :
    publishIssues u b = [] ↔ publishValid u b := by
  unfold publishIssues publishValid
  rw [List.append_eq_nil, List.append_eq_nil, List.append_eq_nil,
    List.append_eq_nil, List.append_eq_nil]
  rw [ite_nil_iff_pos (by simp), ite_nil_iff_neg (by simp),
    urlFieldIssue_nil_iff, urlFieldIssue_nil_iff, platformsIssue_nil_iff,
    ite_nil_iff_neg (by simp)]
  constructor
  · rintro ⟨⟨⟨⟨⟨h1, h2⟩, h3⟩, h4⟩, h5⟩, h6⟩
    refine ⟨h1, by omega, h3, h4, h5, ?_⟩
    by_contra hc
    push_neg at hc
    simp only [Bool.not_eq_true] at hc
    apply h6
    rw [hc.1, hc.2]
    rfl
  · rintro ⟨h1, h2, h3, h4, h5, h6⟩
    refine ⟨⟨⟨⟨⟨h1, by omega⟩, h3⟩, h4⟩, h5⟩, ?_⟩
    intro hc
    rcases h6 with h6 | h6 <;> rw [h6] at hc <;> simp at hc

theorem publishSchemaParse_ok_intro (u : String → Bool) (b : PublishBody)
    (mt : MediaType) (ps : List SocialPlatform)
    (hmt : parseMediaType b.mediaType = some mt)
    (hps : b.platforms.mapM parsePlatform = some ps)
    (h : publishIssues u b = []) :
    publishSchemaParse u b = Except.ok
      { mediaType := mt
        caption := b.caption
        title := b.title
        tags := b.tags
        mediaUrl := b.mediaUrl
        mediaBase64 := b.mediaBase64
        mimeType := b.mimeType
        callToActionUrl := b.callToActionUrl
        campaignId := b.campaignId
        platforms := ps } := by
  unfold publishSchemaParse
  rw [hmt, hps]
  simp [h]

theorem publishSchemaParse_ok_of_nil (u : String → Bool) (b : PublishBody)
    (h : publishIssues u b = []) :
    ∃ parsed, publishSchemaParse u b = Except.ok parsed := by
  have hv := (publishIssues_nil_iff u b).mp h
  obtain ⟨h1, _, _, _, ⟨ps, hps, _⟩, _⟩ := hv
  rcases hmt : parseMediaType b.mediaType with _ | mt
  · rw [hmt] at h1
    simp at h1
  · exact ⟨_, publishSchemaParse_ok_intro u b mt ps hmt hps h⟩

theorem mapM_parsePlatform_isSome :
    ∀ (l : List String) (ps : List SocialPlatform),
      l.mapM parsePlatform = some ps → ∀ s ∈ l, (parsePlatform s).isSome = true := by
  intro l
  induction l with
  | nil =>
    intro ps _ s hs
    exact absurd hs (List.not_mem_nil s)
  | cons a l ih =>
    intro ps h s hs
    rw [List.mapM_cons] at h
    rcases ha : parsePlatform a with _ | pa
    · rw [ha] at h
      simp at h
    · rw [ha] at h
      simp only [Option.bind_eq_bind, Option.some_bind] at h
      rcases List.mem_cons.mp hs with rfl | hs
      · simp [ha]
      · rcases hrest : l.mapM parsePlatform with _ | qs
        · rw [hrest] at h
          simp at h
        · exact ih qs hrest s hs

theorem POST_of_error (adapter : SocialPlatform → PublishPayload → AdapterOutcome)
    (u : String → Bool) (b : PublishBody) (h : publishIssues u b ≠ []) :
    POST adapter u b = (PostResponse.validationFailed (publishIssues u b), []) := by
  unfold POST
  rw [publishSchemaParse_error_of_ne u b h]

theorem POST_of_ok (adapter : SocialPlatform → PublishPayload → AdapterOutcome)
    (u : String → Bool) (b : PublishBody) (parsed : ParsedPublish)
    (h : publishSchemaParse u b = Except.ok parsed) :
    POST adapter u b =
      (PostResponse.ok (publishToSocialPlatforms adapter parsed.toPayload parsed.platforms),
        parsed.platforms) := by
  unfold POST
  rw [h]
  simp only [publishToSocialPlatforms, publishWithTrace_snd]

theorem map_platform_normalize (adapter : SocialPlatform → PublishPayload → AdapterOutcome)
    (req : PublishPayload) (ts : List SocialPlatform) :
    (publishToSocialPlatforms adapter req ts).map (fun r => r.platform) = ts := by
  rw [publishToSocialPlatforms_eq_map, List.map_map]
  have : ((fun r : PlatformResult => r.platform) ∘ fun p => normalizeOutcome p (adapter p req)) =
      fun p => p := by
    funext p
    exact normalizeOutcome_platform p (adapter p req)
  rw [this]
  exact List.map_id ts

/-- Claim C1: for every valid publish request with N unique platform targets, the
publish route returns exactly N `PlatformResult` entries, one per requested
target, ordered identically to the input target sequence. -/
theorem publish_one_result_per_target
    (adapter : SocialPlatform → PublishPayload → AdapterOutcome)
    (urlCheck : String → Bool) (b : PublishBody) (parsed : ParsedPublish)
    (h : publishSchemaParse urlCheck b = Except.ok parsed)
    (hnodup : parsed.platforms.Nodup) :
    ∃ rs, (POST adapter urlCheck b).1 = PostResponse.ok rs ∧
      rs.length = parsed.platforms.length ∧
      rs.map (fun r => r.platform) = parsed.platforms := by
  rw [POST_of_ok adapter urlCheck b parsed h]
  refine ⟨_, rfl, ?_, map_platform_normalize adapter parsed.toPayload parsed.platforms⟩
  rw [publishToSocialPlatforms_eq_map, List.length_map]

/-- Witness for C1 at a concrete request targeting `x` and `instagram`. -/
theorem publish_one_result_per_target_witness :
    ∃ rs, (POST okAdapter (fun _ => true) sampleBody).1 = PostResponse.ok rs ∧
      rs.length = sampleParsed.platforms.length ∧
      rs.map (fun r => r.platform) = sampleParsed.platforms :=
  publish_one_result_per_target okAdapter (fun _ => true) sampleBody sampleParsed rfl
    (by decide)

/-- Claim C4: platform-level failures never fail the whole call: for every valid
request the publish route answers 200 with one result per requested
platform, whatever every adapter does (including throwing). -/
theorem platform_failures_contained
    (adapter : SocialPlatform → PublishPayload → AdapterOutcome)
    (urlCheck : String → Bool) (b : PublishBody) (parsed : ParsedPublish)
    (h : publishSchemaParse urlCheck b = Except.ok parsed) :
    ∃ rs, POST adapter urlCheck b = (PostResponse.ok rs, parsed.platforms) ∧
      rs.map (fun r => r.platform) = parsed.platforms := by
  rw [POST_of_ok adapter urlCheck b parsed h]
  exact ⟨_, rfl, map_platform_normalize adapter parsed.toPayload parsed.platforms⟩

/-- Witness for C4: even an adapter that throws on every call leaves the
whole call successful, with one result per target. -/
theorem platform_failures_contained_witness :
    ∃ rs, POST (fun _ _ => AdapterOutcome.thrown JsThrown.nonError) (fun _ => true) sampleBody =
        (PostResponse.ok rs, sampleParsed.platforms) ∧
      rs.map (fun r => r.platform) = sampleParsed.platforms :=
  platform_failures_contained (fun _ _ => AdapterOutcome.thrown JsThrown.nonError)
    (fun _ => true) sampleBody sampleParsed rfl

theorem publishToSocialPlatforms_getElem? (adapter : SocialPlatform → PublishPayload → AdapterOutcome)
    (req : PublishPayload) (ts : List SocialPlatform) (i : Nat) :
    (publishToSocialPlatforms adapter req ts)[i]? =
      (ts[i]?).map (fun p => normalizeOutcome p (adapter p req)) := by
  rw [publishToSocialPlatforms_eq_map, List.getElem?_map]

/-- Claim C3: if the adapter call for one target `t` throws, the result at every
position holding `t` is a `failure` with a non-empty message derived from
the error, the results at every other position are exactly those of the
fault-free run, and the result list still covers all targets. -/
theorem adapter_throw_isolated
    (adapter : SocialPlatform → PublishPayload → AdapterOutcome) (e : JsThrown)
    (req : PublishPayload) (targets : List SocialPlatform) (t : SocialPlatform) :
    (publishToSocialPlatforms (overrideThrow adapter t e) req targets).length =
      targets.length ∧
    (∀ (i : Nat) (p : SocialPlatform), targets[i]? = some p → p ≠ t →
      (publishToSocialPlatforms (overrideThrow adapter t e) req targets)[i]? =
        (publishToSocialPlatforms adapter req targets)[i]?) ∧
    (∀ i : Nat, targets[i]? = some t →
      ∃ r : PlatformResult,
        (publishToSocialPlatforms (overrideThrow adapter t e) req targets)[i]? = some r ∧
        r.platform = t ∧ r.status = PubStatus.failure ∧
        ∃ m, r.message = some m ∧ m ≠ "") := by
  refine ⟨?_, ?_, ?_⟩
  · rw [publishToSocialPlatforms_eq_map, List.length_map]
  · intro i p hi hp
    rw [publishToSocialPlatforms_getElem?, publishToSocialPlatforms_getElem?, hi]
    simp only [Option.map_some']
    unfold overrideThrow
    rw [if_neg hp]
  · intro i hi
    rw [publishToSocialPlatforms_getElem?, hi]
    refine ⟨_, rfl, ?_, ?_, ?_⟩
    · show (normalizeOutcome t (overrideThrow adapter t e t req)).platform = t
      simp [overrideThrow, normalizeOutcome]
    · show (normalizeOutcome t (overrideThrow adapter t e t req)).status = PubStatus.failure
      simp [overrideThrow, normalizeOutcome]
    · refine ⟨derivedFailureMessage e, ?_, derivedFailureMessage_ne_empty e⟩
      show (normalizeOutcome t (overrideThrow adapter t e t req)).message =
        some (derivedFailureMessage e)
      simp [overrideThrow, normalizeOutcome]

/-- Witness for C3: with targets `[x, instagram, tiktok]` and the
`instagram` adapter throwing, position 1 is a non-empty-message failure
and positions 0 and 2 match the fault-free run. -/
theorem adapter_throw_isolated_witness :
    (publishToSocialPlatforms
        (overrideThrow okAdapter SocialPlatform.instagram (JsThrown.jsError "boom"))
        samplePayload
        [SocialPlatform.x, SocialPlatform.instagram, SocialPlatform.tiktok])[1]? =
      some { platform := SocialPlatform.instagram, status := PubStatus.failure
             message := some "boom", postId := none } ∧
    (publishToSocialPlatforms
        (overrideThrow okAdapter SocialPlatform.instagram (JsThrown.jsError "boom"))
        samplePayload
        [SocialPlatform.x, SocialPlatform.instagram, SocialPlatform.tiktok])[0]? =
      (publishToSocialPlatforms okAdapter samplePayload
        [SocialPlatform.x, SocialPlatform.instagram, SocialPlatform.tiktok])[0]? := by
  have h := adapter_throw_isolated okAdapter (JsThrown.jsError "boom") samplePayload
    [SocialPlatform.x, SocialPlatform.instagram, SocialPlatform.tiktok]
    SocialPlatform.instagram
  refine ⟨?_, ?_⟩
  · obtain ⟨r, hr, _, _, _⟩ := h.2.2 1 (by decide)
    rw [hr]
    have : r = { platform := SocialPlatform.instagram, status := PubStatus.failure
                 message := some "boom", postId := none } := by
      rw [← Option.some_inj, ← hr]
      decide
    rw [this]
  · exact h.2.1 0 SocialPlatform.x (by decide) (by decide)

/-- Counterexample to C2: a request carrying BOTH a media URL and inline
base64 content passes `publishSchema` and reaches an adapter, so
validation does not require exactly one media reference. -/
theorem media_reference_both_accepted_counterexample :
    bothMediaBody.mediaUrl.isSome = true ∧
    bothMediaBody.mediaBase64.isSome = true ∧
    publishSchemaParse (fun _ => true) bothMediaBody = Except.ok bothMediaParsed ∧
    (POST okAdapter (fun _ => true) bothMediaBody).2 = [SocialPlatform.x] :=
  ⟨rfl, rfl, rfl, by decide⟩

/-- Claim C2 as amended: validation requires at least one (not exactly one) of
the media URL and the inline base64 content to be present and non-empty;
with neither, the call fails before any adapter is invoked, and an
accepted request always carries at least one of the two. -/
theorem media_reference_at_least_one
    (adapter : SocialPlatform → PublishPayload → AdapterOutcome)
    (urlCheck : String → Bool) (b : PublishBody) :
    (∀ parsed, publishSchemaParse urlCheck b = Except.ok parsed →
      jsTruthy b.mediaUrl = true ∨ jsTruthy b.mediaBase64 = true) ∧
    (b.mediaUrl = none → b.mediaBase64 = none →
      POST adapter urlCheck b =
        (PostResponse.validationFailed (publishIssues urlCheck b), []) ∧
      publishIssues urlCheck b ≠ []) := by
  constructor
  · intro parsed hp
    have hnil := (publishSchemaParse_ok_elim urlCheck b parsed hp).1
    exact ((publishIssues_nil_iff urlCheck b).mp hnil).2.2.2.2.2
  · intro h1 h2
    have hne : publishIssues urlCheck b ≠ [] := by
      intro hnil
      have hv := (publishIssues_nil_iff urlCheck b).mp hnil
      rcases hv.2.2.2.2.2 with h | h
      · rw [h1] at h
        simp [jsTruthy] at h
      · rw [h2] at h
        simp [jsTruthy] at h
    exact ⟨POST_of_error adapter urlCheck b hne, hne⟩

/-- Witness for C2 (amended) at a request with neither media reference. -/
theorem media_reference_at_least_one_witness :
    POST okAdapter (fun _ => true) noMediaBody =
      (PostResponse.validationFailed (publishIssues (fun _ => true) noMediaBody), []) ∧
    publishIssues (fun _ => true) noMediaBody ≠ [] :=
  (media_reference_at_least_one okAdapter (fun _ => true) noMediaBody).2 rfl rfl

/-- Counterexample to C5: a request violating the claimed "exactly one
media reference" precondition (both present) does not fail the call — it
answers 200 with a result and an adapter is invoked. -/
theorem validation_both_media_call_succeeds_counterexample :
    bothMediaBody.mediaUrl.isSome = true ∧
    bothMediaBody.mediaBase64.isSome = true ∧
    (POST okAdapter (fun _ => true) bothMediaBody).1 =
      PostResponse.ok
        [{ platform := SocialPlatform.x, status := PubStatus.success
           message := some "ok", postId := some "post-1" }] ∧
    (POST okAdapter (fun _ => true) bothMediaBody).2 ≠ [] := by
  refine ⟨rfl, rfl, by decide, by decide⟩

/-- Claim C5 as amended: a request with a bad caption, an empty or unrecognized
target list, or NEITHER media reference fails the whole call with a
validation error, no adapter is invoked and no partial results are
returned. -/
theorem validation_violation_fails_whole_call
    (adapter : SocialPlatform → PublishPayload → AdapterOutcome)
    (urlCheck : String → Bool) (b : PublishBody)
    (h : b.caption.length < 3 ∨ b.platforms = [] ∨
      b.platforms.mapM parsePlatform = none ∨
      (b.mediaUrl = none ∧ b.mediaBase64 = none)) :
    POST adapter urlCheck b =
      (PostResponse.validationFailed (publishIssues urlCheck b), []) ∧
    publishIssues urlCheck b ≠ [] := by
  have hne : publishIssues urlCheck b ≠ [] := by
    intro hnil
    have hv := (publishIssues_nil_iff urlCheck b).mp hnil
    obtain ⟨_, hcap, _, _, ⟨ps, hps, hpne⟩, hmedia⟩ := hv
    rcases h with h | h | h | h
    · omega
    · rw [h] at hps
      have h0 : (some [] : Option (List SocialPlatform)) = some ps := hps
      exact hpne (Option.some_inj.mp h0).symm
    · rw [h] at hps
      exact Option.noConfusion hps
    · rcases hmedia with hm | hm
      · rw [h.1] at hm
        simp [jsTruthy] at hm
      · rw [h.2] at hm
        simp [jsTruthy] at hm
  exact ⟨POST_of_error adapter urlCheck b hne, hne⟩

/-- Witness for C5 (amended) at a request with an empty target list. -/
theorem validation_violation_fails_whole_call_witness :
    POST okAdapter (fun _ => true) emptyPlatformsBody =
      (PostResponse.validationFailed (publishIssues (fun _ => true) emptyPlatformsBody), []) ∧
    publishIssues (fun _ => true) emptyPlatformsBody ≠ [] :=
  validation_violation_fails_whole_call okAdapter (fun _ => true) emptyPlatformsBody
    (Or.inr (Or.inl rfl))

/-- Counterexample to C6: a request naming `x` twice is neither rejected
nor de-duplicated — validation passes it through, the adapter for `x` is
invoked twice, and `x` appears twice in the result sequence. -/
theorem duplicate_targets_counterexample :
    publishSchemaParse (fun _ => true) dupBody = Except.ok dupParsed ∧
    (POST okAdapter (fun _ => true) dupBody).2 = [SocialPlatform.x, SocialPlatform.x] ∧
    (POST okAdapter (fun _ => true) dupBody).1 =
      PostResponse.ok
        [{ platform := SocialPlatform.x, status := PubStatus.success
           message := some "ok", postId := some "post-1" },
         { platform := SocialPlatform.x, status := PubStatus.success
           message := some "ok", postId := some "post-1" }] :=
  ⟨rfl, by decide, by decide⟩

/-- Claim C6 as amended: duplicate platform identifiers pass validation
unchanged (decoding is element-wise, multiplicity preserved), the adapter
is invoked once per occurrence, and the result sequence carries one entry
per occurrence, in input order. -/
theorem duplicate_targets_once_per_occurrence
    (adapter : SocialPlatform → PublishPayload → AdapterOutcome)
    (urlCheck : String → Bool) (b : PublishBody) (parsed : ParsedPublish)
    (h : publishSchemaParse urlCheck b = Except.ok parsed) :
    b.platforms.mapM parsePlatform = some parsed.platforms ∧
    (POST adapter urlCheck b).2 = parsed.platforms ∧
    ∃ rs, (POST adapter urlCheck b).1 = PostResponse.ok rs ∧
      rs.map (fun r => r.platform) = parsed.platforms := by
  refine ⟨(publishSchemaParse_ok_elim urlCheck b parsed h).2.2.2.1, ?_, ?_⟩
  · rw [POST_of_ok adapter urlCheck b parsed h]
  · rw [POST_of_ok adapter urlCheck b parsed h]
    exact ⟨_, rfl, map_platform_normalize adapter parsed.toPayload parsed.platforms⟩

/-- Witness for C6 (amended) at the duplicated request. -/
theorem duplicate_targets_once_per_occurrence_witness :
    dupBody.platforms.mapM parsePlatform = some dupParsed.platforms ∧
    (POST okAdapter (fun _ => true) dupBody).2 = dupParsed.platforms ∧
    ∃ rs, (POST okAdapter (fun _ => true) dupBody).1 = PostResponse.ok rs ∧
      rs.map (fun r => r.platform) = dupParsed.platforms :=
  duplicate_targets_once_per_occurrence okAdapter (fun _ => true) dupBody dupParsed rfl

/-- Claim C7: `publishSchema` accepts a caption exactly when it has at least 3
characters — every accepted request has a caption of length at least 3,
and on an otherwise-valid request the caption check is the only gate: 3
characters pass, 2 fail. -/
theorem caption_min_three :
    (∀ (urlCheck : String → Bool) (b : PublishBody) (parsed : ParsedPublish),
      publishSchemaParse urlCheck b = Except.ok parsed → 3 ≤ b.caption.length) ∧
    (∀ c : String,
      (∃ parsed, publishSchemaParse (fun _ => true) (captionBody c) = Except.ok parsed) ↔
        3 ≤ c.length) ∧
    (∃ parsed, publishSchemaParse (fun _ => true) (captionBody "abc") = Except.ok parsed) ∧
    publishSchemaParse (fun _ => true) (captionBody "ab") =
      Except.error ["Caption must be at least 3 characters."] := by
  have hgen : ∀ (urlCheck : String → Bool) (b : PublishBody) (parsed : ParsedPublish),
      publishSchemaParse urlCheck b = Except.ok parsed → 3 ≤ b.caption.length := by
    intro urlCheck b parsed hp
    have hnil := (publishSchemaParse_ok_elim urlCheck b parsed hp).1
    exact ((publishIssues_nil_iff urlCheck b).mp hnil).2.1
  have hiff : ∀ c : String,
      (∃ parsed, publishSchemaParse (fun _ => true) (captionBody c) = Except.ok parsed) ↔
        3 ≤ c.length := by
    intro c
    constructor
    · rintro ⟨parsed, hp⟩
      exact hgen (fun _ => true) (captionBody c) parsed hp
    · intro hc
      apply publishSchemaParse_ok_of_nil
      rw [publishIssues_nil_iff]
      refine ⟨rfl, hc, ?_, ?_, ⟨[SocialPlatform.x], rfl, by simp⟩, ?_⟩
      · intro s hs
        rfl
      · intro s hs
        exact absurd hs (by simp [captionBody])
      · left
        rfl
  exact ⟨hgen, hiff, (hiff "abc").mpr (by decide), rfl⟩

/-- Claim C8: an accepted request always has a non-empty target list whose
elements are all recognized platform identifiers; recognition means
exactly one of "x", "instagram", "tiktok", "youtube"; an empty target
list is rejected. -/
theorem targets_nonempty_and_recognized :
    (∀ (urlCheck : String → Bool) (b : PublishBody) (parsed : ParsedPublish),
      publishSchemaParse urlCheck b = Except.ok parsed →
        b.platforms ≠ [] ∧ ∀ s ∈ b.platforms, (parsePlatform s).isSome = true) ∧
    (∀ s : String, (parsePlatform s).isSome = true ↔
      s = "x" ∨ s = "instagram" ∨ s = "tiktok" ∨ s = "youtube") ∧
    publishSchemaParse (fun _ => true) emptyPlatformsBody =
      Except.error ["Select at least one platform."] := by
  refine ⟨?_, ?_, rfl⟩
  · intro urlCheck b parsed hp
    obtain ⟨hnil, _, _, hps, _, _⟩ := publishSchemaParse_ok_elim urlCheck b parsed hp
    have hv := (publishIssues_nil_iff urlCheck b).mp hnil
    obtain ⟨_, _, _, _, ⟨ps, hps2, hpne⟩, _⟩ := hv
    constructor
    · intro hb
      rw [hb] at hps2
      have h0 : (some [] : Option (List SocialPlatform)) = some ps := hps2
      exact hpne (Option.some_inj.mp h0).symm
    · exact mapM_parsePlatform_isSome b.platforms parsed.platforms hps
  · intro s
    unfold parsePlatform
    split_ifs with h1 h2 h3 h4 <;> simp_all

/-- Claim C9: a request whose `mediaUrl` or `callToActionUrl` is present but
fails the URL well-formedness check is rejected as a whole before any
adapter is invoked. -/
theorem url_fields_must_be_wellformed
    (adapter : SocialPlatform → PublishPayload → AdapterOutcome)
    (urlCheck : String → Bool) (b : PublishBody) (u : String)
    (hbad : urlCheck u = false)
    (hfield : b.mediaUrl = some u ∨ b.callToActionUrl = some u) :
    POST adapter urlCheck b =
      (PostResponse.validationFailed (publishIssues urlCheck b), []) ∧
    publishIssues urlCheck b ≠ [] := by
  have hne : publishIssues urlCheck b ≠ [] := by
    intro hnil
    have hv := (publishIssues_nil_iff urlCheck b).mp hnil
    rcases hfield with h | h
    · have hu := hv.2.2.1 u h
      rw [hbad] at hu
      exact Bool.noConfusion hu
    · have hu := hv.2.2.2.1 u h
      rw [hbad] at hu
      exact Bool.noConfusion hu
  exact ⟨POST_of_error adapter urlCheck b hne, hne⟩

/-- Witness for C9: with a URL check rejecting every string, the sample
request (whose `mediaUrl` is present) is rejected with no adapter call. -/
theorem url_fields_must_be_wellformed_witness :
    POST okAdapter (fun _ => false) sampleBody =
      (PostResponse.validationFailed (publishIssues (fun _ => false) sampleBody), []) ∧
    publishIssues (fun _ => false) sampleBody ≠ [] :=
  url_fields_must_be_wellformed okAdapter (fun _ => false) sampleBody
    "https://example.com/a.png" rfl (Or.inl rfl)

/-- Claim C10: the aspect-ratio-to-size map is total and fixed on the five
ratios, and every valid image-generation request yields an upstream
payload whose size is exactly the map applied to its aspect ratio. -/
theorem aspect_ratio_size_mapping
    (veoModel : Option String) (b : ImageGenBody) (parsed : ImageGenParsed)
    (h : imageRequestParse b = Except.ok parsed) :
    (aspectRatioToSize AspectRatio.square = "1024x1024" ∧
     aspectRatioToSize AspectRatio.portrait = "1024x1536" ∧
     aspectRatioToSize AspectRatio.landscape = "1536x1024" ∧
     aspectRatioToSize AspectRatio.ultrawide = "1792x1024" ∧
     aspectRatioToSize AspectRatio.vertical = "1024x1792") ∧
    (imagePayload veoModel parsed).size = aspectRatioToSize parsed.aspectRatio :=
  ⟨⟨rfl, rfl, rfl, rfl, rfl⟩, rfl⟩

/-- Witness for C10 at a concrete portrait request. -/
theorem aspect_ratio_size_mapping_witness :
    imageRequestParse sampleImageBody = Except.ok sampleImageParsed ∧
    (imagePayload none sampleImageParsed).size =
      aspectRatioToSize sampleImageParsed.aspectRatio :=
  ⟨rfl, (aspect_ratio_size_mapping none sampleImageBody sampleImageParsed rfl).2⟩
